import Mathlib

/-!
Verification of the booking/pricing/rating core of the alx_travel_app
repository (Django app under `alx_travel_app/listings/`).

The embedding follows the source:
* `Booking.calculate_amount_due` and `Booking.clean` from `listings/models.py`;
* `BookingSerializer.validate` and `ListingSerializer.get_average_rating`
  from `listings/serializers.py`.

Timestamps (`DateTimeField` values) are modelled as integers counting
seconds; Python's `(check_out - check_in).days` is floor division by
86400 (`timedelta.days` floors toward negative infinity), which is
`Int.fdiv`.  Decimal / float money amounts are modelled as rationals.
Nullable fields (`attrs.get(...)` returning `None`, key absence) are
modelled with `Option`.
-/

namespace AlxTravel

/-- Booking status choices of `Booking.booking_status` in models.py
(`PENDING`, `CONFIRMED`, `CANCELLED`). -/
inductive BookingStatus where
  | pending
  | confirmed
  | cancelled
  deriving DecidableEq, Repr

/-- The slice of the `Listing` model (models.py) that the booking
validation and pricing logic reads: identity, `price_per_night`
and `allowable_guests`. -/
structure Listing where
  listingId : Nat
  pricePerNight : ℚ
  allowableGuests : Nat
  deriving DecidableEq, Repr

/-- The slice of a stored `Booking` row that the availability query in
`BookingSerializer.validate` filters on: listing, status and the
check-in/check-out timestamps. -/
structure BookingRow where
  listingId : Nat
  bookingStatus : BookingStatus
  checkInDate : ℤ
  checkOutDate : ℤ
  deriving DecidableEq, Repr

/-- Seconds in a day, the unit of Python's `timedelta.days`. -/
def secondsPerDay : ℤ := 86400

/-- `(check_out_date - check_in_date).days` in models.py line 225:
Python's `timedelta.days` floors toward negative infinity, i.e.
`Int.fdiv`. -/
def durationDays (checkIn checkOut : ℤ) : ℤ :=
  Int.fdiv (checkOut - checkIn) secondsPerDay

/-- The two `ValueError`s that `Booking.calculate_amount_due` can raise. -/
inductive AmountError where
  /-- `ValueError("End date must be after start date.")` -/
  | invalidInterval
  /-- `ValueError("Listing, start date, and end date must be set.")` -/
  | missingFields
  deriving DecidableEq, Repr

/-- `Booking.calculate_amount_due` (models.py lines 219-231): if listing
and both dates are set, take the whole-day duration; when it is
positive return `duration * float(listing.price_per_night)`, otherwise
raise.  When a field is unset (Python falsy `None`), raise the
missing-fields error. -/
def calculate_amount_due (listing : Option Listing)
    (checkInDate checkOutDate : Option ℤ) : Except AmountError ℚ :=
  match listing, checkInDate, checkOutDate with
  | some l, some ci, some co =>
    let duration := durationDays ci co
    if 0 < duration then
      Except.ok ((duration : ℚ) * l.pricePerNight)
    else
      Except.error AmountError.invalidInterval
  | _, _, _ => Except.error AmountError.missingFields

/-- The `attrs` dictionary reaching `BookingSerializer.validate`
(serializers.py lines 59-96); `Option.none` models an absent key or a
`None` value from `attrs.get`. -/
structure BookingAttrs where
  check_in_date : Option ℤ
  check_out_date : Option ℤ
  listing : Option Listing
  number_of_guests : Option Nat
  deriving DecidableEq, Repr

/-- The `ValidationError`s raised by `BookingSerializer.validate`,
one constructor per raise site. -/
inductive ValidationFailure where
  /-- "Both check-in date and check-out date must be provided." -/
  | missingDates
  /-- "Check-out date must be after check-in date." -/
  | invalidInterval
  /-- "Listing is already booked for the selected dates." -/
  | dateConflict
  /-- "Number of guests cannot exceed the listing\x27s maximum capacity
  of \x7bcap\x7d." -/
  | capacityExceeded (cap : Nat)
  deriving DecidableEq, Repr

/-- One row matching the ORM filter in serializers.py lines 79-84:
`listing=listing, booking_status="CONFIRMED",
check_in_date__lt=attrs[check_out_date],
check_out_date__gt=attrs[check_in_date]`. -/
def conflictsWith (l : Listing) (checkIn checkOut : ℤ) (b : BookingRow) : Bool :=
  b.listingId == l.listingId
    && b.bookingStatus == BookingStatus.confirmed
    && decide (b.checkInDate < checkOut)
    && decide (checkIn < b.checkOutDate)

/-- The `.exists()` of the filtered queryset over the stored bookings. -/
def hasConflict (db : List BookingRow) (l : Listing) (checkIn checkOut : ℤ) : Bool :=
  db.any (conflictsWith l checkIn checkOut)

/-- Python truthiness of `attrs.get("number_of_guests")`: falsy when the
key is absent (`None`) or the value is `0`. -/
def guestsTruthy (g : Option Nat) : Bool :=
  match g with
  | some n => n != 0
  | none => false

/-- `BookingSerializer.validate` (serializers.py lines 59-96), with the
stored bookings `db` standing for the `Booking.bookings` table the ORM
query reads.  The checks run in the source order:
1. both date keys present, else the missing-dates error;
2. `check_in_date >= check_out_date`, raise the interval error;
3. if a listing is set and a confirmed booking for it overlaps
   (half-open comparison), raise the date-conflict error;
4. if `attrs.get("number_of_guests")` is truthy and a listing is set and
   the guest count exceeds `listing.allowable_guests`, raise the
   capacity error;
otherwise return `attrs` unchanged. -/
def validate (db : List BookingRow) (attrs : BookingAttrs) :
    Except ValidationFailure BookingAttrs :=
  match attrs.check_in_date, attrs.check_out_date with
  | some ci, some co =>
    if co ≤ ci then
      Except.error ValidationFailure.invalidInterval
    else
      let conflict :=
        match attrs.listing with
        | some l => hasConflict db l ci co
        | none => false
      if conflict then
        Except.error ValidationFailure.dateConflict
      else
        let overCapacity :=
          match attrs.number_of_guests, attrs.listing with
          | g, some l => guestsTruthy g && decide (l.allowableGuests < g.getD 0)
          | _, none => false
        match overCapacity, attrs.listing with
        | true, some l =>
          Except.error (ValidationFailure.capacityExceeded l.allowableGuests)
        | _, _ => Except.ok attrs
  | _, _ => Except.error ValidationFailure.missingDates

/-- The sum of a listing review ratings as an exact rational. -/
def ratingSum (ratings : List ℤ) : ℚ :=
  (ratings.map (fun r : ℤ => (r : ℚ))).sum

/-- `ListingSerializer.get_average_rating`, the ORM aggregate
`Avg("rating")`: `None` on an empty review set, otherwise the exact
arithmetic mean. -/
def dbAvg (ratings : List ℤ) : Option ℚ :=
  match ratings with
  | [] => none
  | _ => some (ratingSum ratings / (ratings.length : ℚ))

/-- `ListingSerializer.get_average_rating` (serializers.py lines
139-144): `float(avg) if avg else 0.0` — the aggregate when it is
truthy (non-`None` and non-zero), else `0.0`. -/
def get_average_rating (ratings : List ℤ) : ℚ :=
  match dbAvg ratings with
  | some a => if a = 0 then 0 else a
  | none => 0

/-- A stored booking row with its persisted `amount_due`, as saved after
`Booking.clean` populated the amount (models.py lines 213-217). -/
structure StoredBooking where
  bookingId : Nat
  listingId : Nat
  checkInDate : ℤ
  checkOutDate : ℤ
  amountDue : ℚ
  bookingStatus : BookingStatus
  deriving DecidableEq, Repr

/-- The persistent store the listing and booking endpoints write. -/
structure AppState where
  listings : List Listing
  bookings : List StoredBooking
  deriving DecidableEq, Repr

/-- Booking creation: `Booking.clean` (models.py lines 213-217) sets
`self.amount_due = self.calculate_amount_due()` from the listing price
at creation time, and the row is saved with that amount.  The
serializer marks `amount_due` read-only, so no other write path touches
it. -/
def createBooking (s : AppState) (bid : Nat) (l : Listing)
    (checkIn checkOut : ℤ) (st : BookingStatus) : Except AmountError AppState :=
  match calculate_amount_due (some l) (some checkIn) (some checkOut) with
  | Except.ok amt =>
    Except.ok { s with bookings :=
      s.bookings ++ [⟨bid, l.listingId, checkIn, checkOut, amt, st⟩] }
  | Except.error e => Except.error e

/-- A listing update through `ListingViewSet` / `ListingSerializer`
writes only the fields of the `travel_listings` row: changing
`price_per_night` maps over the listings and leaves the bookings table
untouched (no code path recomputes a stored `amount_due`). -/
def updateListingPrice (s : AppState) (lid : Nat) (newPrice : ℚ) : AppState :=
  { s with listings :=
      s.listings.map (fun l =>
        if l.listingId == lid then { l with pricePerNight := newPrice } else l) }

/-! ## Helper lemmas -/

theorem hasConflict_eq_true_iff (db : List BookingRow) (l : Listing) (ci co : ℤ) :
    hasConflict db l ci co = true ↔
      ∃ b ∈ db, b.listingId = l.listingId ∧
        b.bookingStatus = BookingStatus.confirmed ∧
        b.checkInDate < co ∧ ci < b.checkOutDate := by
  simp [hasConflict, conflictsWith, List.any_eq_true, and_assoc]

theorem durationDays_of_whole_days (ci n : ℤ) :
    durationDays ci (ci + n * secondsPerDay) = n := by
  have h : (86400 : ℤ) ≠ 0 := by decide
  simp [durationDays, secondsPerDay, Int.mul_fdiv_cancel _ h]

theorem get_average_rating_eq_mean (ratings : List ℤ) (hne : ratings ≠ []) :
    get_average_rating ratings = ratingSum ratings / (ratings.length : ℚ) := by
  cases ratings with
  | nil => exact absurd rfl hne
  | cons a as =>
    show (if ratingSum (a :: as) / (((a :: as).length : ℕ) : ℚ) = 0
        then (0 : ℚ)
        else ratingSum (a :: as) / (((a :: as).length : ℕ) : ℚ)) =
      ratingSum (a :: as) / (((a :: as).length : ℕ) : ℚ)
    split
    · next h => exact h.symm
    · rfl

/-! ## Claims -/

/-- C1: with both dates present, a listing present and a valid interval
`check_in < check_out`, `BookingSerializer.validate` reports the
date-conflict error iff some stored booking for the same listing with
status `CONFIRMED` satisfies `existing_in < proposed_check_out` and
`proposed_check_in < existing_out` (half-open semantics); and a booking
whose check-out is at or before the proposed check-in (in particular an
adjacent one) never matches the conflict filter. -/
theorem C1_dateConflict_iff_overlap
    (db : List BookingRow) (attrs : BookingAttrs) (ci co : ℤ) (l : Listing)
    (hci : attrs.check_in_date = some ci) (hco : attrs.check_out_date = some co)
    (hl : attrs.listing = some l) (hlt : ci < co) :
    (validate db attrs = Except.error ValidationFailure.dateConflict ↔
      ∃ b ∈ db, b.listingId = l.listingId ∧
        b.bookingStatus = BookingStatus.confirmed ∧
        b.checkInDate < co ∧ ci < b.checkOutDate) ∧
    (∀ b : BookingRow, b.checkOutDate ≤ ci → conflictsWith l ci co b = false) := by
  obtain ⟨i, o, li, g⟩ := attrs
  simp only at hci hco hl
  subst hci hco hl
  constructor
  · rw [← hasConflict_eq_true_iff db l ci co]
    simp only [validate, if_neg (not_le.mpr hlt)]
    cases h : hasConflict db l ci co with
    | true => simp
    | false =>
      simp only [Bool.false_eq_true, if_neg]
      cases hb : guestsTruthy g && decide (l.allowableGuests < g.getD 0) <;> simp
  · intro b hb
    simp [conflictsWith, not_lt.mpr hb]

/-- C1 witness: a database with one confirmed booking `[day 1, day 5)`
and a proposed stay `[day 2, day 4)` for the same listing is reported
as a date conflict, and the matching row witnesses the overlap. -/
theorem C1_dateConflict_iff_overlap_witness :
    validate [⟨7, BookingStatus.confirmed, 86400, 432000⟩]
        ⟨some 172800, some 345600, some ⟨7, 100, 4⟩, some 2⟩ =
      Except.error ValidationFailure.dateConflict :=
  ((C1_dateConflict_iff_overlap
      [⟨7, BookingStatus.confirmed, 86400, 432000⟩]
      ⟨some 172800, some 345600, some ⟨7, 100, 4⟩, some 2⟩
      172800 345600 ⟨7, 100, 4⟩ rfl rfl rfl (by decide)).1.mpr
    ⟨⟨7, BookingStatus.confirmed, 86400, 432000⟩, by decide⟩)

/-- C2: with a positive nightly price and a stay spanning exactly `n`
whole days (`n ≥ 1`), `Booking.calculate_amount_due` returns exactly
`n * price_per_night`. -/
theorem C2_amount_eq_nights_mul_price
    (l : Listing) (ci n : ℤ) (hp : 0 < l.pricePerNight) (hn : 1 ≤ n) :
    calculate_amount_due (some l) (some ci) (some (ci + n * secondsPerDay)) =
      Except.ok ((n : ℚ) * l.pricePerNight) := by
  have hd := durationDays_of_whole_days ci n
  have hpos : 0 < n := hn
  simp [calculate_amount_due, hd, hpos]

/-- C2 witness: a 3-night stay at nightly price 100 costs exactly 300. -/
theorem C2_amount_eq_nights_mul_price_witness :
    (0 : ℚ) < 100 ∧ (1 : ℤ) ≤ 3 ∧
      calculate_amount_due (some ⟨7, 100, 4⟩) (some 0) (some (0 + 3 * secondsPerDay)) =
        Except.ok ((3 : ℚ) * 100) :=
  ⟨by decide, by decide,
    C2_amount_eq_nights_mul_price ⟨7, 100, 4⟩ 0 3 (by decide) (by decide)⟩

/-- C3 counterexample: a proposal that simultaneously overlaps a
confirmed booking and exceeds the listing capacity (capacity 4, 9
guests, stay `[day 2, day 4)` against confirmed `[day 1, day 5)`)
is reported as the date-conflict error, not the capacity error: the
source checks availability before capacity. -/
theorem C3_capacity_conflict_counterexample :
    guestsTruthy (some 9) = true ∧ (4 : Nat) < 9 ∧
    hasConflict [⟨3, BookingStatus.confirmed, 86400, 432000⟩] ⟨3, 100, 4⟩ 172800 345600 = true ∧
    validate [⟨3, BookingStatus.confirmed, 86400, 432000⟩]
        ⟨some 172800, some 345600, some ⟨3, 100, 4⟩, some 9⟩ =
      Except.error ValidationFailure.dateConflict ∧
    Except.error (α := BookingAttrs) ValidationFailure.dateConflict ≠
      Except.error (ValidationFailure.capacityExceeded 4) := by
  refine ⟨rfl, by decide, rfl, rfl, by simp⟩

/-- C3 (amended): booking validation short-circuits in the order
interval check, then availability check, then capacity check; so when
an input simultaneously violates capacity and has a date conflict, the
error reported is the date conflict, not capacity exceeded. -/
theorem C3_check_order
    (db : List BookingRow) (attrs : BookingAttrs) (ci co : ℤ) (l : Listing)
    (hci : attrs.check_in_date = some ci) (hco : attrs.check_out_date = some co)
    (hl : attrs.listing = some l) :
    (co ≤ ci → validate db attrs = Except.error ValidationFailure.invalidInterval) ∧
    (ci < co → hasConflict db l ci co = true →
      validate db attrs = Except.error ValidationFailure.dateConflict) ∧
    (ci < co → hasConflict db l ci co = false →
      guestsTruthy attrs.number_of_guests = true →
      l.allowableGuests < attrs.number_of_guests.getD 0 →
      validate db attrs =
        Except.error (ValidationFailure.capacityExceeded l.allowableGuests)) := by
  obtain ⟨i, o, li, g⟩ := attrs
  simp only at hci hco hl
  subst hci hco hl
  refine ⟨fun hle => by simp [validate, hle], fun hlt hc => ?_, fun hlt hc hg hcap => ?_⟩
  · simp [validate, if_neg (not_le.mpr hlt), hc]
  · simp only at hg ⊢
    simp [validate, if_neg (not_le.mpr hlt), hc, hg, hcap]

/-- C3 amended witness: same database, a conflicting over-capacity
proposal yields the date-conflict error; a non-conflicting
over-capacity proposal yields the capacity error. -/
theorem C3_check_order_witness :
    (86400 : ℤ) < 432000 ∧
    hasConflict [⟨3, BookingStatus.confirmed, 86400, 432000⟩] ⟨3, 100, 4⟩ 86400 432000 = true ∧
    validate [⟨3, BookingStatus.confirmed, 86400, 432000⟩]
        ⟨some 86400, some 432000, some ⟨3, 100, 4⟩, some 9⟩ =
      Except.error ValidationFailure.dateConflict :=
  ⟨by decide, rfl,
    (C3_check_order [⟨3, BookingStatus.confirmed, 86400, 432000⟩]
        ⟨some 86400, some 432000, some ⟨3, 100, 4⟩, some 9⟩
        86400 432000 ⟨3, 100, 4⟩ rfl rfl rfl).2.1 (by decide) rfl⟩

/-- C4: a booking is created with `amount_due` computed once from the
listing price and interval length at creation; a later change to the
listing nightly price leaves the bookings table, and so every stored
`amount_due`, unchanged — in particular the created booking still
carries the amount derived from the price at creation time. -/
theorem C4_amount_immutable_under_price_change
    (s : AppState) (bid : Nat) (l : Listing) (ci co : ℤ) (st : BookingStatus)
    (s1 : AppState) (h : createBooking s bid l ci co st = Except.ok s1)
    (lid : Nat) (p : ℚ) :
    (updateListingPrice s1 lid p).bookings = s1.bookings ∧
    ∃ b ∈ (updateListingPrice s1 lid p).bookings,
      b.bookingId = bid ∧
      b.amountDue = (durationDays ci co : ℚ) * l.pricePerNight := by
  refine ⟨rfl, ?_⟩
  unfold createBooking calculate_amount_due at h
  by_cases hd : 0 < durationDays ci co
  · simp only [hd, if_pos] at h
    obtain rfl : { s with bookings :=
        s.bookings ++ [⟨bid, l.listingId, ci, co,
          (durationDays ci co : ℚ) * l.pricePerNight, st⟩] } = s1 :=
      Except.ok.inj h
    refine ⟨⟨bid, l.listingId, ci, co,
      (durationDays ci co : ℚ) * l.pricePerNight, st⟩, ?_, rfl, rfl⟩
    simp [updateListingPrice]
  · simp [hd] at h

/-- C4 witness: create a 3-night booking at price 100, then change the
listing price to 999; the stored bookings are untouched and the created
booking still carries amount 300. -/
theorem C4_amount_immutable_under_price_change_witness :
    (updateListingPrice
        { listings := [⟨7, 100, 4⟩],
          bookings := [⟨1, 7, 0, 259200, 300, BookingStatus.confirmed⟩] } 7 999).bookings =
      [⟨1, 7, 0, 259200, 300, BookingStatus.confirmed⟩] ∧
    ∃ b ∈ (updateListingPrice
        { listings := [⟨7, 100, 4⟩],
          bookings := [⟨1, 7, 0, 259200, 300, BookingStatus.confirmed⟩] } 7 999).bookings,
      b.bookingId = 1 ∧ b.amountDue = (durationDays 0 259200 : ℚ) * (100 : ℚ) :=
  C4_amount_immutable_under_price_change
    { listings := [⟨7, 100, 4⟩], bookings := [] } 1 ⟨7, 100, 4⟩ 0 259200
    BookingStatus.confirmed
    { listings := [⟨7, 100, 4⟩],
      bookings := [⟨1, 7, 0, 259200, 300, BookingStatus.confirmed⟩] }
    (by
      have hd : durationDays 0 259200 = 3 := by decide
      simp [createBooking, calculate_amount_due, hd]
      norm_num) 7 999

/-- C5 counterexample: a 12-hour stay (`check_in = 0`,
`check_out = 43200` seconds) resolves to zero whole nights, and
`calculate_amount_due` does raise the interval error, but
`BookingSerializer.validate` accepts the input (its comparison is on
raw timestamps, not whole nights), refuting the claim that booking
validation also fails on every zero-night stay. -/
theorem C5_subday_stay_counterexample :
    durationDays 0 43200 = 0 ∧
    validate [] ⟨some 0, some 43200, some ⟨7, 100, 4⟩, some 2⟩ =
      Except.ok ⟨some 0, some 43200, some ⟨7, 100, 4⟩, some 2⟩ ∧
    calculate_amount_due (some ⟨7, 100, 4⟩) (some 0) (some 43200) =
      Except.error AmountError.invalidInterval := by
  refine ⟨by decide, rfl, rfl⟩

/-- C5 (amended): whenever the stay resolves to zero or negative whole
nights, `calculate_amount_due` fails with the invalid-interval error
rather than returning an amount; booking validation fails with its
invalid-interval error exactly when `check_out ≤ check_in` (so
`check_in = check_out` is rejected by both, but a sub-24-hour stay with
`check_in < check_out` passes validation even though it resolves to
zero nights). -/
theorem C5_zero_nights_invalid_interval
    (l : Listing) (ci co : ℤ) (hd : durationDays ci co ≤ 0) :
    calculate_amount_due (some l) (some ci) (some co) =
      Except.error AmountError.invalidInterval ∧
    (∀ db : List BookingRow, ∀ attrs : BookingAttrs,
      attrs.check_in_date = some ci → attrs.check_out_date = some co →
      co ≤ ci →
      validate db attrs = Except.error ValidationFailure.invalidInterval) := by
  constructor
  · simp [calculate_amount_due, not_lt.mpr hd]
  · intro db attrs hci hco hle
    obtain ⟨i, o, li, g⟩ := attrs
    simp only at hci hco
    subst hci hco
    simp [validate, hle]

/-- C5 amended witness: for `check_in = check_out = 0` the duration is
zero, the amount computation raises the interval error, and validation
raises its interval error. -/
theorem C5_zero_nights_invalid_interval_witness :
    durationDays 0 0 ≤ 0 ∧
    calculate_amount_due (some ⟨7, 100, 4⟩) (some 0) (some 0) =
      Except.error AmountError.invalidInterval ∧
    validate [] ⟨some 0, some 0, some ⟨7, 100, 4⟩, some 2⟩ =
      Except.error ValidationFailure.invalidInterval :=
  ⟨by decide,
    (C5_zero_nights_invalid_interval ⟨7, 100, 4⟩ 0 0 (by decide)).1,
    (C5_zero_nights_invalid_interval ⟨7, 100, 4⟩ 0 0 (by decide)).2
      [] ⟨some 0, some 0, some ⟨7, 100, 4⟩, some 2⟩ rfl rfl (by decide)⟩

/-- C6: `ListingSerializer.get_average_rating` returns the arithmetic
mean of the ratings for a non-empty collection, returns exactly `0`
(not an error and not null) for the empty collection, and
`average_rating [1, 2, 3, 4, 5] = 3`. -/
theorem C6_average_rating_mean (ratings : List ℤ) (hne : ratings ≠ []) :
    get_average_rating ratings = ratingSum ratings / (ratings.length : ℚ) ∧
    get_average_rating [] = 0 ∧
    get_average_rating [1, 2, 3, 4, 5] = 3 := by
  refine ⟨get_average_rating_eq_mean ratings hne, rfl, ?_⟩
  norm_num [get_average_rating, dbAvg, ratingSum]

/-- C6 witness: the mean of `[1, 2, 3, 4, 5]` is `15 / 5`. -/
theorem C6_average_rating_mean_witness :
    ([1, 2, 3, 4, 5] : List ℤ) ≠ [] ∧
    get_average_rating [1, 2, 3, 4, 5] =
      ratingSum [1, 2, 3, 4, 5] / (([1, 2, 3, 4, 5] : List ℤ).length : ℚ) :=
  ⟨by decide, (C6_average_rating_mean [1, 2, 3, 4, 5] (by decide)).1⟩

/-- C7: composition scenario — listing priced 100 per night with
capacity 4, one existing `CONFIRMED` booking `[2024-06-01, 2024-06-05)`
(seconds 0 to 345600 from the 2024-06-01 epoch); the new request
`[2024-06-05, 2024-06-08)` with 2 guests passes `validate` and
`calculate_amount_due` returns exactly 300. -/
theorem C7_composition_scenario :
    validate [⟨7, BookingStatus.confirmed, 0, 345600⟩]
        ⟨some 345600, some 604800, some ⟨7, 100, 4⟩, some 2⟩ =
      Except.ok ⟨some 345600, some 604800, some ⟨7, 100, 4⟩, some 2⟩ ∧
    calculate_amount_due (some ⟨7, 100, 4⟩) (some 345600) (some 604800) =
      Except.ok 300 := by
  constructor
  · rfl
  · have hd : durationDays 345600 604800 = 3 := by decide
    simp only [calculate_amount_due, hd]
    norm_num

/-- C8: for ratings each in `[1, 5]`, the aggregated rating lies in
`[0, 5]`; the result is invariant under any permutation of the input;
and evaluating the aggregator twice on the same collection yields the
same result (it is a pure function). -/
theorem C8_average_rating_bounds_perm_idem
    (ratings ratings2 : List ℤ)
    (hrange : ∀ r ∈ ratings, 1 ≤ r ∧ r ≤ 5)
    (hperm : ratings.Perm ratings2) :
    (0 ≤ get_average_rating ratings ∧ get_average_rating ratings ≤ 5) ∧
    get_average_rating ratings = get_average_rating ratings2 ∧
    get_average_rating ratings = get_average_rating ratings := by
  refine ⟨?_, ?_, rfl⟩
  · by_cases hne : ratings = []
    · subst hne
      constructor <;> norm_num [get_average_rating, dbAvg]
    · have hL : (0 : ℚ) < (ratings.length : ℚ) := by
        exact_mod_cast List.length_pos.mpr hne
      have hlb : (0 : ℚ) ≤ ratingSum ratings := by
        apply List.sum_nonneg
        intro x hx
        obtain ⟨r, hr, rfl⟩ := List.mem_map.mp hx
        have h1 := (hrange r hr).1
        exact_mod_cast le_trans (by norm_num) h1
      have hub : ratingSum ratings ≤ (ratings.length : ℚ) * 5 := by
        have h5 := List.sum_le_card_nsmul (ratings.map (fun r : ℤ => (r : ℚ))) 5 ?_
        · simpa [ratingSum, nsmul_eq_mul, List.length_map] using h5
        · intro x hx
          obtain ⟨r, hr, rfl⟩ := List.mem_map.mp hx
          exact_mod_cast (hrange r hr).2
      rw [get_average_rating_eq_mean ratings hne]
      constructor
      · exact div_nonneg hlb (le_of_lt hL)
      · rw [div_le_iff hL]
        linarith
  · by_cases hne : ratings = []
    · subst hne
      rw [hperm.symm.eq_nil]
    · have hne2 : ratings2 ≠ [] := by
        intro h2
        rw [h2] at hperm
        exact hne hperm.eq_nil
      have hsum : ratingSum ratings = ratingSum ratings2 :=
        (hperm.map (fun r : ℤ => (r : ℚ))).sum_eq
      rw [get_average_rating_eq_mean ratings hne,
        get_average_rating_eq_mean ratings2 hne2, hsum, hperm.length_eq]

/-- C8 witness: ratings `[1, 5, 3]` (each in `[1, 5]`) and the
reordering `[3, 1, 5]` give bounds `0 ≤ avg ≤ 5` and the same value. -/
theorem C8_average_rating_bounds_perm_idem_witness :
    (∀ r ∈ ([1, 5, 3] : List ℤ), 1 ≤ r ∧ r ≤ 5) ∧
    ([1, 5, 3] : List ℤ).Perm [3, 1, 5] ∧
    (0 ≤ get_average_rating [1, 5, 3] ∧ get_average_rating [1, 5, 3] ≤ 5) ∧
    get_average_rating [1, 5, 3] = get_average_rating [3, 1, 5] :=
  ⟨by decide, by decide,
    (C8_average_rating_bounds_perm_idem [1, 5, 3] [3, 1, 5]
      (by decide) (by decide)).1,
    (C8_average_rating_bounds_perm_idem [1, 5, 3] [3, 1, 5]
      (by decide) (by decide)).2.1⟩

/-- C9: when the check-in or the check-out date key is absent,
`BookingSerializer.validate` reports the missing-dates error, whatever
the other fields and the stored bookings are — so no interval,
availability or capacity check is reached. -/
theorem C9_missing_dates_first
    (db : List BookingRow) (attrs : BookingAttrs)
    (h : attrs.check_in_date = none ∨ attrs.check_out_date = none) :
    validate db attrs = Except.error ValidationFailure.missingDates := by
  obtain ⟨i, o, li, g⟩ := attrs
  simp only at h
  rcases h with h | h
  · subst h; cases o <;> rfl
  · subst h; cases i <;> rfl

/-- C9 witness: check-in absent while every other field is supplied
(and the proposal would both conflict and exceed capacity) still
reports only the missing-dates error. -/
theorem C9_missing_dates_first_witness :
    validate [⟨7, BookingStatus.confirmed, 0, 345600⟩]
        ⟨none, some 172800, some ⟨7, 100, 4⟩, some 99⟩ =
      Except.error ValidationFailure.missingDates :=
  C9_missing_dates_first [⟨7, BookingStatus.confirmed, 0, 345600⟩]
    ⟨none, some 172800, some ⟨7, 100, 4⟩, some 99⟩ (Or.inl rfl)

/-- C10: with `number_of_guests` absent or `0` (Python-falsy, so the
capacity branch is skipped), `BookingSerializer.validate` can never
report a capacity-exceeded error, whatever the listing capacity, the
other fields or the stored bookings. -/
theorem C10_zero_guests_never_capacity
    (db : List BookingRow) (attrs : BookingAttrs) (cap : Nat)
    (h : attrs.number_of_guests = none ∨ attrs.number_of_guests = some 0) :
    validate db attrs ≠ Except.error (ValidationFailure.capacityExceeded cap) := by
  obtain ⟨i, o, li, g⟩ := attrs
  simp only at h
  have hg : guestsTruthy g = false := by
    rcases h with h | h <;> subst h <;> rfl
  cases i with
  | none => cases o <;> simp [validate]
  | some ci =>
    cases o with
    | none => simp [validate]
    | some co =>
      simp only [validate]
      split
      · simp
      · split
        · simp
        · cases li with
          | none => simp [hg]
          | some l => simp [hg]

/-- C10 witness: zero guests against a capacity-zero listing is not a
capacity error (here it validates successfully). -/
theorem C10_zero_guests_never_capacity_witness :
    validate [] ⟨some 0, some 86400, some ⟨7, 100, 0⟩, some 0⟩ ≠
      Except.error (ValidationFailure.capacityExceeded 0) :=
  C10_zero_guests_never_capacity []
    ⟨some 0, some 86400, some ⟨7, 100, 0⟩, some 0⟩ 0 (Or.inr rfl)

end AlxTravel
